import Mathlib

/-!
Verification development for `mypy/stubgenc.py`, the stub generator for C
extension modules.  The Python source is shallowly embedded: every Python
string operation used by the generator is modelled character-exactly on
`String` (via its `List Char` data), runtime objects are modelled as records
of the capability flags the generator probes (`inspect.isbuiltin`,
`inspect.ismethoddescriptor`, `type(obj).__name__`, docstrings, ...), and the
generator's passes become pure Lean functions producing the same lines of
output text.  Functions of the repository that live outside `src/`
(`mypy.stubutil`) are modelled from the specification and marked as such in
their doc comments.
-/

namespace Stubgenc

/-! ### Python string primitives, modelled on `List Char` -/

/-- Python `s.startswith(t)`. -/
def pyStartsWith (s t : String) : Bool := t.data.isPrefixOf s.data

/-- Python `s.endswith(t)`. -/
def pyEndsWith (s t : String) : Bool := t.data.isSuffixOf s.data

/-- Python `s[n:]` (drop the first `n` characters). -/
def pyDrop (s : String) (n : Nat) : String := String.mk (s.data.drop n)

/-- Python `s[:-n]` for `n > 0` (drop the last `n` characters). -/
def pyDropRight (s : String) (n : Nat) : String :=
  String.mk (s.data.take (s.data.length - n))

/-- Python `len(s)`. -/
def pyLength (s : String) : Nat := s.data.length

/-- Python `c in s` for a single character `c`. -/
def pyContainsChar (s : String) (c : Char) : Bool := s.data.contains c

/-- Characters stripped by Python `str.strip()`. -/
def isPySpace (c : Char) : Bool :=
  c == ' ' || c == '\t' || c == '\n' || c == '\x0d' || c == '\x0b' || c == '\x0c'

/-- Python `s.strip()`. -/
def pyStrip (s : String) : String :=
  String.mk (((s.data.dropWhile isPySpace).reverse.dropWhile isPySpace).reverse)

/-- Helper for `pySplitChar`: split a character list at every occurrence of `c`. -/
def splitOnCharAux (c : Char) : List Char → List Char → List (List Char)
  | [], acc => [acc.reverse]
  | x :: xs, acc =>
    if x = c then acc.reverse :: splitOnCharAux c xs []
    else splitOnCharAux c xs (x :: acc)

/-- Python `s.split(c)` for a one-character separator. -/
def pySplitChar (s : String) (c : Char) : List String :=
  (splitOnCharAux c s.data []).map String.mk

/-- Helper for `pySplitOnce`. -/
def splitOnceAux (c : Char) : List Char → List Char → String × Option String
  | [], acc => (String.mk acc.reverse, none)
  | x :: xs, acc =>
    if x = c then (String.mk acc.reverse, some (String.mk xs))
    else splitOnceAux c xs (x :: acc)

/-- Python `s.split(c, 1)`: the part before the first `c`, and, when `c`
occurs, the remainder after it. -/
def pySplitOnce (s : String) (c : Char) : String × Option String :=
  splitOnceAux c s.data []

/-- Python `s[:s.rindex(c)]`: everything before the last occurrence of `c`
(only used under a guard that `c` occurs in `s`). -/
def beforeLastChar (s : String) (c : Char) : String :=
  String.mk ((s.data.reverse.dropWhile (fun x => x ≠ c)).tail.reverse)

/-- Python `s.replace(', ', '')`. -/
def removeCommaSpace : List Char → List Char
  | [] => []
  | [x] => [x]
  | x :: y :: xs =>
    if x = ',' ∧ y = ' ' then removeCommaSpace xs
    else x :: removeCommaSpace (y :: xs)

/-- Python `s.replace(', ', '')` on strings. -/
def pyRemoveCommaSpace (s : String) : String := String.mk (removeCommaSpace s.data)

/-- A regex word character (`\w`): letter, digit or underscore. -/
def wordChar (c : Char) : Bool := c.isAlpha || c.isDigit || c == '_'

/-- Does `w` occur at the head of `s` with a word boundary after it? -/
def isWordAt (w s : List Char) : Bool :=
  w.isPrefixOf s &&
    (match s.drop w.length with
     | [] => true
     | c :: _ => !wordChar c)

/-- Scan `s` for a whole-word occurrence of `w`; `atBoundary` records whether
the previous character admits a word boundary (`\b`). -/
def containsWordAux (w : List Char) : List Char → Bool → Bool
  | [], _ => false
  | x :: xs, atBoundary =>
    (atBoundary && isWordAt w (x :: xs)) || containsWordAux w xs (!wordChar x)

/-- Python `re.search(r'\bw\b', line)` for a word `w` made of word characters. -/
def containsWord (w line : String) : Bool :=
  containsWordAux w.data line.data true

/-- Lexicographic (code-point) order on strings, matching Python string
comparison; stated on the character data so that it is kernel-computable. -/
def strLE (a b : String) : Prop := a.data ≤ b.data

instance : DecidableRel strLE := fun a b => by
  unfold strLE; infer_instance

instance : IsTrans String strLE := ⟨fun _ _ _ h₁ h₂ => le_trans h₁ h₂⟩

instance : IsTotal String strLE := ⟨fun a b => le_total a.data b.data⟩

instance : IsAntisymm String strLE := ⟨fun _ _ h₁ h₂ => String.ext (le_antisymm h₁ h₂)⟩

/-! ### The runtime object model

A member of a class (or any runtime value whose own member table the
generator never opens) is a record of exactly the observations
`stubgenc.py` makes of it.  Identity checks between Python type objects
(`type(obj) is type(ord)`) are modelled by comparing runtime type names. -/

/-- A runtime value as observed by the generator's capability probes. -/
structure RMember where
  /-- Source: `type(obj).__name__`. -/
  typeName : String
  /-- Source: `inspect.isbuiltin(obj)`. -/
  isbuiltin : Bool
  /-- Source: `inspect.ismethoddescriptor(obj)`. -/
  ismethoddescriptor : Bool
  /-- Source: `inspect.isdatadescriptor(obj)`. -/
  isdatadescriptor : Bool
  /-- Source: `hasattr(obj, 'fget')`. -/
  hasFget : Bool
  /-- Source: `getattr(obj, 'fset') is None`. -/
  fsetIsNone : Bool
  /-- Source: `getattr(obj, '__doc__', None)`. -/
  doc : Option String
deriving DecidableEq

/-- A Python type object as it appears in a method resolution order: its
name, its defining module, and a numeric identity (so that `is object`
identity checks can be modelled). -/
structure PyType where
  id : Nat
  name : String
  module : String
deriving DecidableEq, BEq

/-- The distinguished `object` root type. -/
def objectType : PyType := ⟨0, "object", "builtins"⟩

/-- A module-level runtime value: the observations of the value itself plus,
when it is a type, its member table (as a key list and a lookup function,
mirroring a Python dict) and its method resolution order. -/
structure RSym where
  val : RMember
  /-- Source: `inspect.isclass(obj)`. -/
  isclass : Bool
  /-- Source: `inspect.ismodule(obj)`. -/
  ismodule : Bool
  /-- The keys of `obj.__dict__`. -/
  dictNames : List String
  /-- Lookup in `obj.__dict__`. -/
  dict : String → RMember
  /-- Source: `obj.mro()`. -/
  mro : List PyType

/-- A loaded module snapshot: its name and its `__dict__` (keys plus lookup;
the key list order models the dict's enumeration order). -/
structure PyModule where
  name : String
  names : List String
  dict : String → RSym

/-! ### Classifiers (`is_c_*`, stubgenc.py lines 87-111) -/

/-- Source: `is_c_function`: `inspect.isbuiltin(obj) or type(obj) is type(ord)`;
`type(ord)` is `builtin_function_or_method`. -/
def is_c_function (v : RMember) : Bool :=
  v.isbuiltin || (v.typeName == "builtin_function_or_method")

/-- Source: `is_c_method`: `inspect.ismethoddescriptor(obj) or type(obj) in
(type(str.index), type(str.__add__), type(str.__new__))`; those three types
are `method_descriptor`, `wrapper_descriptor` and
`builtin_function_or_method`. -/
def is_c_method (v : RMember) : Bool :=
  v.ismethoddescriptor || (v.typeName == "method_descriptor") ||
    (v.typeName == "wrapper_descriptor") || (v.typeName == "builtin_function_or_method")

/-- Source: `is_c_classmethod`: `inspect.isbuiltin(obj) or type(obj).__name__ in
('classmethod', 'classmethod_descriptor')`. -/
def is_c_classmethod (v : RMember) : Bool :=
  v.isbuiltin || (v.typeName == "classmethod") || (v.typeName == "classmethod_descriptor")

/-- Source: `is_c_property`: `inspect.isdatadescriptor(obj) and hasattr(obj, 'fget')`. -/
def is_c_property (v : RMember) : Bool := v.isdatadescriptor && v.hasFget

/-- Source: `is_c_property_readonly`: `getattr(prop, 'fset') is None`. -/
def is_c_property_readonly (v : RMember) : Bool := v.fsetIsNone

/-- Source: `is_c_type`: `inspect.isclass(obj) or type(obj) is type(int)`;
`type(int)` is `type`. -/
def is_c_type (s : RSym) : Bool := s.isclass || (s.val.typeName == "type")

/-- Source: `name.startswith('__') and name.endswith('__')`. -/
def isDunderName (s : String) : Bool := pyStartsWith s "__" && pyEndsWith s "__"

/-- Source: `is_skipped_attribute` (stubgenc.py lines 300-307). -/
def is_skipped_attribute (attr : String) : Bool :=
  attr == "__getattribute__" || attr == "__str__" || attr == "__repr__" ||
    attr == "__doc__" || attr == "__dict__" || attr == "__module__" ||
    attr == "__weakref__"

/-- Source: `method_name_sort_key` (stubgenc.py lines 292-297). -/
def method_name_sort_key (name : String) : Nat × String :=
  if name = "__new__" ∨ name = "__init__" then (0, name)
  else if isDunderName name then (2, name)
  else (1, name)

/-- Order on member names induced by `method_name_sort_key` and Python's
lexicographic tuple comparison. -/
def memberKeyLE (a b : String) : Prop :=
  (method_name_sort_key a).1 < (method_name_sort_key b).1 ∨
    ((method_name_sort_key a).1 = (method_name_sort_key b).1 ∧
      strLE (method_name_sort_key a).2 (method_name_sort_key b).2)

instance : DecidableRel memberKeyLE := fun a b => by
  unfold memberKeyLE; infer_instance

/-! ### `infer_method_sig` (stubgenc.py lines 310-335) -/

/-- The zero-argument dunder names of the first heuristic group. -/
def nullaryNames : List String :=
  ["hash", "iter", "next", "sizeof", "copy", "deepcopy", "reduce", "getinitargs",
   "int", "float", "trunc", "complex", "bool"]

/-- The binary-operator dunder cores, each of which gets one `other` parameter. -/
def binaryOpCores : List String :=
  ["eq", "ne", "lt", "le", "gt", "ge",
   "add", "radd", "sub", "rsub", "mul", "rmul",
   "mod", "rmod", "floordiv", "rfloordiv", "truediv", "rtruediv",
   "divmod", "rdivmod", "pow", "rpow"]

/-- Source: `infer_method_sig`: per-name heuristic parameter lists for undocumented
methods. -/
def infer_method_sig (name : String) : String :=
  if isDunderName name then
    let n := pyDropRight (pyDrop name 2) 2
    if n ∈ nullaryNames then "()"
    else if n = "getitem" then "(index)"
    else if n = "setitem" then "(index, object)"
    else if n = "delattr" ∨ n = "getattr" then "(name)"
    else if n = "setattr" then "(name, value)"
    else if n = "getstate" then "()"
    else if n = "setstate" then "(state)"
    else if n ∈ binaryOpCores then "(other)"
    else if n = "neg" ∨ n = "pos" then "()"
    else "(*args, **kwargs)"
  else "(*args, **kwargs)"

/-! ### Signature inference from documentation strings -/

/-- The first line of a string (up to the first newline). -/
def firstLine (s : String) : String := (pySplitChar s '\n').headD ""

/-- Modelled from the spec: `infer_sig_from_docstring` lives in
`mypy.stubutil`, which is not under `src/`.  Per the spec (§4.2), the
documentation text is scanned against two stylized patterns:
`name(param, param, ...) -> ReturnType` and a bare-call form with no return
arrow, in which case the return type defaults to the generic `Any` marker.
The result, when the text matches, is the parenthesized parameter list and
the return type. -/
def infer_sig_from_docstring (docstr : Option String) (name : String) :
    Option (String × String) :=
  match docstr with
  | none => none
  | some d =>
    if pyStartsWith d (name ++ "(") then
      let inside := pyDrop d (pyLength name + 1)
      match pySplitOnce inside ')' with
      | (_, none) => none
      | (params, some rest) =>
        let sig := "(" ++ params ++ ")"
        if pyStartsWith rest " -> " then
          let ret := pyStrip (firstLine (pyDrop rest 4))
          if ret = "" then some (sig, "Any") else some (sig, ret)
        else some (sig, "Any")
    else none

/-- Modelled from the spec: `infer_prop_type_from_docstring` lives in
`mypy.stubutil`, which is not under `src/`.  The spec only says property
types are inferred from the documentation string; modelled as reading a
leading `Type: description` annotation. -/
def infer_prop_type_from_docstring (docstr : Option String) : Option String :=
  match docstr with
  | none => none
  | some d =>
    match pySplitOnce d ':' with
    | (_, none) => none
    | (t, some rest) => if pyStartsWith rest " " then some t else none

/-! ### `strip_or_import` (stubgenc.py lines 173-194) -/

/-- Source: `strip_or_import(typ, module, imports)`: strip the owning module's
qualification or the `builtins` qualification from a dotted type name, or
record an import line for the foreign part before the final dot.  Returns
the display name and the updated import list (the Python code mutates
`imports` in place).  The Python guard `module and typ.startswith(...)`
reduces to the `startswith` test because a module object is always truthy. -/
def strip_or_import (typ modName : String) (imports : List String) :
    String × List String :=
  if pyStartsWith typ modName then
    (pyDrop typ (pyLength modName + 1), imports)
  else if pyContainsChar typ '.' then
    let arg_module := beforeLastChar typ '.'
    if arg_module = "builtins" then (pyDrop typ (pyLength "builtins" + 1), imports)
    else (typ, imports ++ ["import " ++ arg_module])
  else (typ, imports)

/-! ### `generate_c_function_stub` (stubgenc.py lines 114-170) -/

/-- Dict lookup in a caller-supplied override table. -/
def lookupSig (sigs : List (String × String)) (name : String) : Option String :=
  List.lookup name sigs

/-- Python truthiness of the optional `class_name` / `self_var` strings:
`None` and the empty string are falsy. -/
def truthy (o : Option String) : Bool :=
  match o with
  | some s => decide (s ≠ "")
  | none => false

/-- Steps 124-142 of `generate_c_function_stub`: choose the parameter list
and the return type from the class-constructor override table, the
documentation string, the per-name heuristics, or the per-symbol override
table, in that order.  Returns `(sig, ret_type)`. -/
def pick_signature (name : String) (doc : Option String)
    (sigs class_sigs : List (String × String)) (class_name : Option String)
    (ret_type0 : String) : String × String :=
  if (name = "__new__" ∨ name = "__init__") ∧ lookupSig sigs name = none ∧
      truthy class_name = true ∧
      (lookupSig class_sigs (class_name.getD "")).isSome then
    ((lookupSig class_sigs (class_name.getD "")).getD "", ret_type0)
  else
    match infer_sig_from_docstring doc name with
    | some (s, r) => (s, r)
    | none =>
      if truthy class_name = true ∧ lookupSig sigs name = none then
        (infer_method_sig name, ret_type0)
      else ((lookupSig sigs name).getD "(*args, **kwargs)", ret_type0)

/-- Steps 144-153: strip the surrounding parentheses and elide an explicit
`self`-like first parameter, returning `(self_arg, sig)`. -/
def elide_self (sig1 self_arg0 : String) (self_var : Option String) :
    String × String :=
  if sig1 ≠ "" then
    if truthy self_var = true then
      let sv := self_var.getD ""
      let groups := pySplitOnce sig1 ','
      if groups.1 = sv ∨ pyStartsWith groups.1 (sv ++ ":") then
        ("", match groups.2 with
             | some g1 => sv ++ "," ++ g1
             | none => sv)
      else (self_arg0, sig1)
    else (self_arg0, sig1)
  else (pyRemoveCommaSpace self_arg0, sig1)

/-- Steps 155-167: resolve the annotation of each parameter through
`strip_or_import`, threading the import list. -/
def resolve_arg_types (sig2 modName : String) (imports : List String) :
    String × List String :=
  if sig2 ≠ "" then
    let folded := (pySplitChar sig2 ',').foldl
      (fun (acc : List String × List String) arg =>
        let pieces := pySplitOnce arg ':'
        match pieces.2 with
        | none => (acc.1 ++ [pyStrip pieces.1], acc.2)
        | some t =>
          let resolved := strip_or_import (pyStrip t) modName acc.2
          (acc.1 ++ [pyStrip pieces.1 ++ ": " ++ resolved.1], resolved.2))
      ([], imports)
    (String.intercalate ", " folded.1, folded.2)
  else (sig2, imports)

/-- Line 170: `'def %s(%s%s) -> %s: ...' % (name, self_arg, sig, ret_type)`. -/
def render_def_line (name self_arg sig ret : String) : String :=
  "def " ++ name ++ "(" ++ self_arg ++ sig ++ ") -> " ++ ret ++ ": ..."

/-- Source: `generate_c_function_stub`: render one function or method stub line.
Returns the updated import list and the emitted line (the Python code
appends the line to `output` and mutates `imports`). -/
def generate_c_function_stub (modName name : String) (obj : RMember)
    (self_var : Option String) (sigs : List (String × String))
    (class_name : Option String) (class_sigs : List (String × String))
    (imports : List String) : List String × String :=
  let ret_type0 := if name = "__init__" ∧ truthy class_name = true then "None" else "Any"
  let self_arg0 := if truthy self_var = true then self_var.getD "" ++ ", " else ""
  let picked := pick_signature name obj.doc sigs class_sigs class_name ret_type0
  let sig1 := pyDropRight (pyDrop picked.1 1) 1
  let elided := elide_self sig1 self_arg0 self_var
  let resolved := resolve_arg_types elided.2 modName imports
  let ret := strip_or_import picked.2 modName resolved.2
  (ret.2, render_def_line name elided.1 resolved.1 ret.1)

/-! ### `generate_c_property_stub` (stubgenc.py lines 197-207) -/

/-- Render a property stub: a getter, plus a setter when not read-only. -/
def generate_c_property_stub (name : String) (obj : RMember) (readonly : Bool) :
    List String :=
  let inferred :=
    match infer_prop_type_from_docstring obj.doc with
    | some t => if t = "" then "Any" else t
    | none => "Any"
  ["@property", "def " ++ name ++ "(self) -> " ++ inferred ++ ": ..."] ++
    (if readonly then []
     else ["@" ++ name ++ ".setter",
           "def " ++ name ++ "(self, val: " ++ inferred ++ ") -> None: ..."])

/-! ### `add_typing_import` (stubgenc.py lines 76-84) -/

/-- The fixed list of generic-typing marker names, in the order the Python
code checks them. -/
def typingMarkers : List String := ["Any", "Union", "Tuple", "Optional", "List", "Dict"]

/-- Source: `add_typing_import`: prepend one aggregated `from typing import ...`
line (and a blank line) listing the markers that occur as whole words in the
output, in the fixed check order; leave the output unchanged when no marker
occurs. -/
def add_typing_import (output : List String) : List String :=
  let names := typingMarkers.filter (fun n => output.any (fun line => containsWord n line))
  if names ≠ [] then
    ("from typing import " ++ String.intercalate ", " names) :: "" :: output
  else output

/-! ### Base-class pruning (stubgenc.py lines 255-269) -/

/-- Lines 265-269: keep a base only when no already-kept base is a subclass
of it (`issubclass(b, base)`); `issub` is the ambient subclass predicate. -/
def minimizeBases (issub : PyType → PyType → Bool) (allBases : List PyType) :
    List PyType :=
  allBases.foldl
    (fun bases base => if bases.any (fun b => issub b base) then bases else bases ++ [base])
    []

/-- Lines 255-269: from `obj.mro()`, drop the trailing `object` root, a
trailing `pybind11_object`, and the class itself, then prune redundant
bases. -/
def compute_bases (issub : PyType → PyType → Bool) (mro : List PyType) :
    List PyType :=
  let ab := if mro.getLast? = some objectType then mro.dropLast else mro
  let ab :=
    match ab.getLast? with
    | some t => if t.name = "pybind11_object" then ab.dropLast else ab
    | none => ab
  minimizeBases issub (ab.drop 1)

/-! ### `generate_c_type_stub` (stubgenc.py lines 210-289) -/

/-- Accumulator for the member loop of `generate_c_type_stub`. -/
structure ClassAcc where
  methods : List String
  properties : List String
  done : List String
  imports : List String

/-- One iteration of the member loop (lines 225-247): dispatch a member to
the method, class-method or property renderer.  Note the Python code appends
the `@classmethod` marker line before the `__new__`-suppression `continue`,
so a suppressed class-method `__new__` still leaves the marker behind. -/
def classMemberStep (modName class_name : String) (obj : RSym)
    (sigs class_sigs : List (String × String)) (acc : ClassAcc) (attr : String) :
    ClassAcc :=
  let value := obj.dict attr
  if is_c_method value || is_c_classmethod value then
    let acc := { acc with done := acc.done ++ [attr] }
    if is_skipped_attribute attr then acc
    else
      let tagged :=
        if is_c_classmethod value then (acc.methods ++ ["@classmethod"], "cls")
        else (acc.methods, "self")
      if attr = "__new__" ∧ "__init__" ∈ obj.dictNames then
        { acc with methods := tagged.1 }
      else
        let attr2 := if attr = "__new__" then "__init__" else attr
        let gen := generate_c_function_stub modName attr2 value (some tagged.2) sigs
          (some class_name) class_sigs acc.imports
        { acc with methods := tagged.1 ++ [gen.2], imports := gen.1 }
  else if is_c_property value then
    { acc with done := acc.done ++ [attr],
               properties := acc.properties ++
                 generate_c_property_stub attr value (is_c_property_readonly value) }
  else acc

/-- The member names of a class sorted by `method_name_sort_key` (line 221). -/
def sortedAttrs (obj : RSym) : List String :=
  List.insertionSort memberKeyLE obj.dictNames

/-- Render the base-class list, resolving each `module.name` through
`strip_or_import` (lines 270-279). -/
def render_bases (modName : String) (bases : List PyType) (imports : List String) :
    String × List String :=
  if bases ≠ [] then
    let folded := bases.foldl
      (fun (acc : List String × List String) base =>
        let resolved := strip_or_import (base.module ++ "." ++ base.name) modName acc.2
        (acc.1 ++ [resolved.1], resolved.2))
      ([], imports)
    ("(" ++ String.intercalate ", " folded.1 ++ ")", folded.2)
  else ("", imports)

/-- Source: `generate_c_type_stub`: render one class stub.  Returns the
updated import list and the emitted lines. -/
def generate_c_type_stub (issub : PyType → PyType → Bool) (modName class_name : String)
    (obj : RSym) (sigs class_sigs : List (String × String)) (imports : List String) :
    List String × List String :=
  let acc := (sortedAttrs obj).foldl
    (classMemberStep modName class_name obj sigs class_sigs)
    ⟨[], [], [], imports⟩
  let varDecls := ((sortedAttrs obj).filter
      (fun a => !(is_skipped_attribute a) && !(decide (a ∈ acc.done)))).map
    (fun a => a ++ ": Any = ...")
  let bases := compute_bases issub obj.mro
  let rendered := render_bases modName bases acc.imports
  let lines :=
    if acc.methods = [] ∧ varDecls = [] ∧ acc.properties = [] then
      ["class " ++ class_name ++ rendered.1 ++ ": ..."]
    else
      ["class " ++ class_name ++ rendered.1 ++ ":"] ++
        varDecls.map (fun l => "    " ++ l) ++
        acc.methods.map (fun l => "    " ++ l) ++
        acc.properties.map (fun l => "    " ++ l)
  (rendered.2, lines)

/-! ### Module-level assembly (stubgenc.py lines 30-73) -/

/-- Line 33: `sorted(module.__dict__.items(), key=lambda x: x[0])`. -/
def moduleSortedNames (m : PyModule) : List String :=
  List.insertionSort strLE m.names

/-- Pass 1 (lines 34-37): the module symbols rendered as free functions; no
name filter is applied. -/
def moduleFunctionNames (m : PyModule) : List String :=
  (moduleSortedNames m).filter (fun n => is_c_function (m.dict n).val)

/-- Pass 2 (lines 39-45): the module symbols rendered as classes; dunder
names are skipped. -/
def moduleTypeNames (m : PyModule) : List String :=
  (moduleSortedNames m).filter (fun n => !(isDunderName n) && is_c_type (m.dict n))

/-- The `done` set after passes 1 and 2. -/
def moduleDoneNames (m : PyModule) : List String :=
  moduleFunctionNames m ++ moduleTypeNames m

/-- Pass 3 (lines 46-54): the module symbols rendered as constants; dunder
names, already-handled names and modules are skipped. -/
def moduleVariableNames (m : PyModule) : List String :=
  (moduleSortedNames m).filter
    (fun n => !(isDunderName n) && !(decide (n ∈ moduleDoneNames m)) &&
      !(m.dict n).ismodule)

/-- Lines 50-54: the declared type of a constant, constrained to a small
whitelist of builtin type names. -/
def varDeclLine (n : String) (s : RSym) : String :=
  let t := s.val.typeName
  let t :=
    if t = "int" ∨ t = "str" ∨ t = "bytes" ∨ t = "float" ∨ t = "bool" then t
    else "Any"
  n ++ ": " ++ t

/-- Line 65-67: append a class-stub line, inserting a blank line before a
`class` header when the previous emitted line is non-blank. -/
def appendTypeLine (out : List String) (line : String) : List String :=
  if pyStartsWith line "class" ∧ out ≠ [] ∧ out.getLast? ≠ some "" then
    out ++ ["", line]
  else out ++ [line]

/-- Lines 55-67: merge the sorted deduplicated imports, the constants, the
functions and the class blocks, inserting a blank line between the imports-plus-
constants block and the functions when both are present. -/
def assembleBody (imports varDecls functions types : List String) : List String :=
  let out := List.insertionSort strLE imports.dedup ++ varDecls
  let out := if out ≠ [] ∧ functions ≠ [] then out ++ [""] else out
  let out := out ++ functions
  types.foldl appendTypeLine out

/-- Lines 55-68: the assembled output, with the aggregated typing import
prepended. -/
def assemble_output (imports varDecls functions types : List String) : List String :=
  add_typing_import (assembleBody imports varDecls functions types)

/-- The pure core of `generate_stub_for_c_module`: all output lines for a
module snapshot.  `issub` is the ambient subclass predicate used for
base-class pruning. -/
def generate_stub_lines (issub : PyType → PyType → Bool) (m : PyModule)
    (sigs class_sigs : List (String × String)) : List String :=
  let pass1 := (moduleFunctionNames m).foldl
    (fun (acc : List String × List String) n =>
      let gen := generate_c_function_stub m.name n (m.dict n).val none sigs none [] acc.1
      (gen.1, acc.2 ++ [gen.2]))
    ([], [])
  let pass2 := (moduleTypeNames m).foldl
    (fun (acc : List String × List String) n =>
      let gen := generate_c_type_stub issub m.name n (m.dict n) sigs class_sigs acc.1
      (gen.1, acc.2 ++ gen.2))
    (pass1.1, [])
  let varDecls := (moduleVariableNames m).map (fun n => varDeclLine n (m.dict n))
  assemble_output pass2.1 varDecls pass1.2 pass2.2

/-! ### The entry point's effect trace (stubgenc.py lines 19-73)

`generate_stub_for_c_module` performs I/O: it imports the module, asserts
the precondition, prepares the output directory, opens the target, and
writes the header and the generated lines.  The trace of these effects is
modelled as a list of events; `is_c_module` (from `mypy.stubutil`, not under
`src/`) is an external collaborator per the spec and enters as the Boolean
`isCMod`, and `os.path.isdir` enters as `dirExists`. -/

/-- One observable I/O action of the entry point. -/
inductive IOEvent where
  | importModule : String → IOEvent
  | precondFailed : String → IOEvent
  | makedirs : String → IOEvent
  | openTarget : String → IOEvent
  | writeLine : String → IOEvent
deriving DecidableEq

/-- Source: `os.path.dirname(target)`. -/
def pyDirname (path : String) : String :=
  if pyContainsChar path '/' then beforeLastChar path '/' else ""

/-- Modelled from the spec: `write_header` lives in `mypy.stubutil`, which
is not under `src/`.  The spec (§6) only says a provenance header comment
naming the source module is written before all generated content. -/
def header_line (modName : String) : String := "# Stubs for " ++ modName

/-- The effect trace of `generate_stub_for_c_module`: import, precondition
check (aborting on failure), output-path preparation, open, then the writes
of the header and every generated line (each suffixed with a newline). -/
def generate_stub_for_c_module (issub : PyType → PyType → Bool) (isCMod : Bool)
    (dirExists : Bool) (m : PyModule) (target : String) (add_header : Bool)
    (sigs class_sigs : List (String × String)) : List IOEvent :=
  IOEvent.importModule m.name ::
    (if isCMod = false then [IOEvent.precondFailed (m.name ++ " is not a C module")]
     else
       let subdir := pyDirname target
       (if subdir ≠ "" ∧ dirExists = false then [IOEvent.makedirs subdir] else []) ++
         IOEvent.openTarget target ::
           ((if add_header then [IOEvent.writeLine (header_line m.name ++ "\n")] else []) ++
             (generate_stub_lines issub m sigs class_sigs).map
               (fun l => IOEvent.writeLine (l ++ "\n"))))

/-! ### Helper lemmas -/

theorem strMk_data (s : String) : String.mk s.data = s := by
  cases s; rfl

theorem str_append_assoc (a b c : String) : a ++ b ++ c = a ++ (b ++ c) := by
  apply String.ext; simp [String.data_append]

theorem dropWhile_append_of_all (p : Char → Bool) (l₁ l₂ : List Char)
    (h : ∀ x ∈ l₁, p x = true) : (l₁ ++ l₂).dropWhile p = l₂.dropWhile p := by
  induction l₁ with
  | nil => rfl
  | cons x xs ih =>
    simp only [List.cons_append, List.dropWhile_cons, h x (by simp)]
    exact ih (fun y hy => h y (by simp [hy]))

theorem pyStartsWith_append (s t : String) : pyStartsWith (s ++ t) s = true := by
  rw [pyStartsWith, String.data_append, List.isPrefixOf_iff_prefix]
  exact List.prefix_append s.data t.data

theorem pyDrop_concat (typ front rest : String) (c : Char)
    (h : typ.data = front.data ++ c :: rest.data) :
    pyDrop typ (pyLength front + 1) = rest := by
  rw [pyDrop, pyLength, h,
    show front.data ++ c :: rest.data = (front.data ++ [c]) ++ rest.data by simp,
    show front.data.length + 1 = (front.data ++ [c]).length by simp]
  rw [List.drop_left]

theorem pyContainsChar_concat (typ front rest : String) (c : Char)
    (h : typ.data = front.data ++ c :: rest.data) : pyContainsChar typ c = true := by
  rw [pyContainsChar, h]
  simp [List.contains, List.elem_eq_mem]

theorem beforeLastChar_concat (typ front rest : String) (c : Char)
    (h : typ.data = front.data ++ c :: rest.data)
    (hrest : rest.data.contains c = false) : beforeLastChar typ c = front := by
  have hmem : ∀ x ∈ rest.data.reverse, (fun y => decide (y ≠ c)) x = true := by
    intro x hx
    simp only [List.mem_reverse] at hx
    simp only [List.contains, List.elem_eq_mem, decide_eq_false_iff_not] at hrest
    simp only [decide_eq_true_eq]
    exact fun hxc => hrest (hxc ▸ hx)
  rw [beforeLastChar, h]
  rw [show (front.data ++ c :: rest.data).reverse =
    rest.data.reverse ++ c :: front.data.reverse by simp]
  rw [show ((fun x => x ≠ c) : Char → Bool) = (fun y => decide (y ≠ c)) from rfl]
  rw [dropWhile_append_of_all _ _ _ hmem]
  simp only [List.dropWhile_cons, decide_not, decide_eq_true_eq]
  simp [strMk_data]

/-! ### Claims C3-C6 -/

/-- C3 counterexample: an output using both `Union` and `Tuple` as whole
words receives the aggregated import line `from typing import Union, Tuple`,
which lists the markers in the fixed check order, not alphabetically
(`Tuple` would precede `Union`). -/
theorem c3_counterexample :
    add_typing_import ["x: Union[int]", "y: Tuple[int]"] =
      ["from typing import Union, Tuple", "", "x: Union[int]", "y: Tuple[int]"] ∧
    (add_typing_import ["x: Union[int]", "y: Tuple[int]"]).head? ≠
      some "from typing import Tuple, Union" := by
  constructor
  · decide
  · decide

/-- C3 (amended): whenever at least one generic-typing marker occurs as a
whole word in the output, exactly one aggregated import line is prepended,
followed by one blank line, listing exactly the markers that occur — in the
fixed order `Any, Union, Tuple, Optional, List, Dict` (not alphabetical);
when no marker occurs the output is unchanged. -/
theorem c3_typing_import_fixed_order (output : List String) :
    (typingMarkers.filter (fun n => output.any (fun line => containsWord n line)) ≠ [] →
      add_typing_import output =
        ("from typing import " ++ String.intercalate ", "
          (typingMarkers.filter (fun n => output.any (fun line => containsWord n line)))) ::
          "" :: output) ∧
    (typingMarkers.filter (fun n => output.any (fun line => containsWord n line)) = [] →
      add_typing_import output = output) := by
  constructor <;> intro h <;> simp [add_typing_import, h]

/-- Witness for `c3_typing_import_fixed_order` at concrete outputs. -/
theorem c3_typing_import_fixed_order_witness :
    add_typing_import ["n: Dict[int, int]"] =
      ["from typing import Dict", "", "n: Dict[int, int]"] ∧
    add_typing_import ["n: float"] = ["n: float"] :=
  ⟨((c3_typing_import_fixed_order ["n: Dict[int, int]"]).1 (by decide)).trans (by decide),
   (c3_typing_import_fixed_order ["n: float"]).2 (by decide)⟩

/-- C4 counterexample: with one import line, no constants and one function,
the assembled output places a blank line before the function section even
though the constants section is empty — the Python guard is
`if output and functions` where `output` already holds the imports. -/
theorem c4_counterexample :
    assemble_output ["import foo"] [] ["def f(x: int) -> int: ..."] [] =
      ["import foo", "", "def f(x: int) -> int: ..."] ∧
    (assemble_output ["import foo"] [] ["def f(x: int) -> int: ..."] []).get? 1 =
      some "" := by
  constructor
  · decide
  · decide

/-- C4 (amended): when the function section is non-empty, a blank separator
line is inserted before it if and only if the block of import lines and
constants preceding it is non-empty; in particular import lines alone (with
no constants) do trigger the blank line. -/
theorem c4_separator_iff_leading_block (imports varDecls functions : List String)
    (hf : functions ≠ []) :
    (List.insertionSort strLE imports.dedup ++ varDecls = [] →
      assembleBody imports varDecls functions [] = functions) ∧
    (List.insertionSort strLE imports.dedup ++ varDecls ≠ [] →
      assembleBody imports varDecls functions [] =
        (List.insertionSort strLE imports.dedup ++ varDecls) ++ [""] ++ functions) := by
  constructor <;> intro h <;> simp [assembleBody, h, hf]

/-- Witness for `c4_separator_iff_leading_block` at concrete inputs. -/
theorem c4_separator_iff_leading_block_witness :
    assembleBody [] [] ["def g() -> int: ..."] [] = ["def g() -> int: ..."] ∧
    assembleBody ["import x"] [] ["def g() -> int: ..."] [] =
      ["import x", "", "def g() -> int: ..."] :=
  ⟨(c4_separator_iff_leading_block [] [] ["def g() -> int: ..."] (by decide)).1 (by decide),
   ((c4_separator_iff_leading_block ["import x"] [] ["def g() -> int: ..."]
      (by decide)).2 (by decide)).trans (by decide)⟩

/-- C5: the resolver policy of `strip_or_import`.  (1) A name carrying the
owning module's qualification is stripped of it, with no import recorded;
(2) an undotted name is returned unchanged with no import; (3) a
`builtins`-qualified name is stripped of that qualification with no import;
(4) any other dotted name is kept in full as the display form while
an import line for the part before the final dot is appended. -/
theorem c5_strip_or_import_policy (modName typ : String) (imports : List String) :
    (∀ rest, typ = modName ++ "." ++ rest →
      strip_or_import typ modName imports = (rest, imports)) ∧
    (pyStartsWith typ modName = false → pyContainsChar typ '.' = false →
      strip_or_import typ modName imports = (typ, imports)) ∧
    (∀ rest, pyStartsWith typ modName = false → typ = "builtins." ++ rest →
      rest.data.contains '.' = false →
      strip_or_import typ modName imports = (rest, imports)) ∧
    (∀ front rest, pyStartsWith typ modName = false → typ = front ++ "." ++ rest →
      rest.data.contains '.' = false → front ≠ "builtins" →
      strip_or_import typ modName imports = (typ, imports ++ ["import " ++ front])) := by
  refine ⟨?_, ?_, ?_, ?_⟩
  · intro rest h
    subst h
    have hdata : (modName ++ "." ++ rest).data = modName.data ++ '.' :: rest.data := by
      simp [String.data_append]
    have hsw : pyStartsWith (modName ++ "." ++ rest) modName = true := by
      rw [str_append_assoc]; exact pyStartsWith_append modName ("." ++ rest)
    rw [strip_or_import, if_pos hsw]
    rw [pyDrop_concat _ _ _ _ hdata]
  · intro h1 h2
    rw [strip_or_import, if_neg (by simp [h1]), if_neg (by simp [h2])]
  · intro rest h1 h2 h3
    subst h2
    have hdata : (("builtins." : String) ++ rest).data =
        ("builtins" : String).data ++ '.' :: rest.data := by
      simp [String.data_append]
    rw [strip_or_import, if_neg (by simp [h1]),
      if_pos (by simp [pyContainsChar_concat _ _ _ _ hdata]),
      if_pos (beforeLastChar_concat _ _ _ _ hdata h3)]
    rw [pyDrop_concat _ _ _ _ hdata]
  · intro front rest h1 h2 h3 h4
    subst h2
    have hdata : (front ++ "." ++ rest).data = front.data ++ '.' :: rest.data := by
      simp [String.data_append]
    rw [strip_or_import, if_neg (by simp [h1]),
      if_pos (by simp [pyContainsChar_concat _ _ _ _ hdata]),
      beforeLastChar_concat _ _ _ _ hdata h3, if_neg h4]

/-- Witness for `c5_strip_or_import_policy`: each branch at a concrete name. -/
theorem c5_strip_or_import_policy_witness :
    strip_or_import "mod.X" "mod" [] = ("X", []) ∧
    strip_or_import "int" "mod" [] = ("int", []) ∧
    strip_or_import "builtins.str" "mod" [] = ("str", []) ∧
    strip_or_import "foo.bar.X" "mod" [] = ("foo.bar.X", ["import foo.bar"]) :=
  ⟨(c5_strip_or_import_policy "mod" "mod.X" []).1 "X" (by decide),
   (c5_strip_or_import_policy "mod" "int" []).2.1 (by decide) (by decide),
   (c5_strip_or_import_policy "mod" "builtins.str" []).2.2.1 "str" (by decide)
     (by decide) (by decide),
   ((c5_strip_or_import_policy "mod" "foo.bar.X" []).2.2.2 "foo.bar" "X" (by decide)
     (by decide) (by decide) (by decide)).trans (by decide)⟩

/-- The subclass predicate of a linear inheritance chain `a → b → c` above
the universal root: reflexivity, the chain edges and their composition, and
everything below `object`. -/
def chainSub (a b c : PyType) : PyType → PyType → Bool := fun x y =>
  decide (x = y) || (decide (x = a) && (decide (y = b) || decide (y = c))) ||
    (decide (x = b) && decide (y = c)) || decide (y = objectType)

/-- C6: for a class `a` whose method resolution order is the linear chain
`a → b → c` followed by the universal root `object`, the pruned base list is
exactly `[b]`, the single most specific proper ancestor: `object`, the class
itself, and the implied ancestor `c` are all removed (and a `pybind11_object`
occupying the position of `c` is removed by the dedicated check instead). -/
theorem c6_linear_chain_minimal_bases (a b c : PyType) :
    compute_bases (chainSub a b c) [a, b, c, objectType] = [b] := by
  by_cases hc : c.name = "pybind11_object" <;>
    simp [compute_bases, minimizeBases, chainSub, hc]

/-! ### Claims C1, C2, C8 -/

/-- Lemma: `pick_signature` keeps the initial return type whenever the
documentation string yields no signature: only the docstring branch can
replace it. -/
theorem pick_signature_ret_of_no_doc (name : String) (doc : Option String)
    (sigs class_sigs : List (String × String)) (class_name : Option String)
    (r0 : String) (hdoc : infer_sig_from_docstring doc name = none) :
    (pick_signature name doc sigs class_sigs class_name r0).2 = r0 := by
  rw [pick_signature]
  split
  · rfl
  · rw [hdoc]
    split
    · contradiction
    · split <;> rfl

/-- Shape of a rendered `__init__` line with return type `None`. -/
theorem render_def_line_init_none (a b : String) :
    render_def_line "__init__" a b "None" = "def __init__(" ++ (a ++ b) ++ ") -> None: ..." := by
  apply String.ext
  simp only [render_def_line, String.data_append, List.append_assoc, List.cons_append,
    List.nil_append]

/-- Shape of a rendered binary-operator method line. -/
theorem render_def_line_other (name : String) :
    render_def_line name "self, " "other" "Any" =
      "def " ++ name ++ "(self, other) -> Any: ..." := by
  apply String.ext
  simp only [render_def_line, String.data_append, List.append_assoc, List.cons_append,
    List.nil_append]

/-- A value whose only observable feature is being an ordinary builtin
callable (`inspect.isbuiltin` holds, runtime type
`builtin_function_or_method`, no class-method marker). -/
def ordinaryBuiltinValue : RMember :=
  ⟨"builtin_function_or_method", true, false, false, false, false, none⟩

/-- C2 counterexample: an ordinary builtin callable — the very shape that
`is_c_function` classifies as a plain function, with a runtime type name
that is not one of the class-method markers — is nonetheless classified as
a class method, because `is_c_classmethod` accepts any `inspect.isbuiltin`
value.  This refutes the claim that membership is never determined by the
member being an ordinary builtin callable. -/
theorem c2_counterexample :
    is_c_classmethod ordinaryBuiltinValue = true ∧
    is_c_function ordinaryBuiltinValue = true ∧
    ordinaryBuiltinValue.typeName ≠ "classmethod" ∧
    ordinaryBuiltinValue.typeName ≠ "classmethod_descriptor" := by
  refine ⟨?_, ?_, ?_, ?_⟩ <;> decide

/-- A class with a single member `m` and a plain `[C, object]` method
resolution order, used to observe how one member value is rendered. -/
def oneMemberClass (v : RMember) : RSym :=
  ⟨⟨"type", false, false, false, false, false, none⟩, true, false, ["m"],
   fun _ => v, [⟨1, "C", "mod"⟩, objectType]⟩

/-- C2 (amended): the code classifies a member as a class method if it is a
builtin callable (capability probe `inspect.isbuiltin`) or its runtime type
name equals a class-method marker; in particular an ordinary builtin
callable member is rendered with the `@classmethod` decorator line in the
generated class stub. -/
theorem c2_builtin_member_rendered_classmethod (issub : PyType → PyType → Bool)
    (v : RMember) (hv : v.isbuiltin = true) :
    "    @classmethod" ∈ (generate_c_type_stub issub "mod" "C" (oneMemberClass v) [] [] []).2 := by
  have hcm : is_c_classmethod v = true := by
    simp [is_c_classmethod, hv]
  simp [generate_c_type_stub, sortedAttrs, oneMemberClass, classMemberStep, hcm,
    List.insertionSort, is_skipped_attribute]

/-- Witness for `c2_builtin_member_rendered_classmethod` at a concrete value. -/
theorem c2_builtin_member_rendered_classmethod_witness :
    "    @classmethod" ∈ (generate_c_type_stub (fun _ _ => false) "mod" "C"
      (oneMemberClass ordinaryBuiltinValue) [] [] []).2 :=
  c2_builtin_member_rendered_classmethod (fun _ _ => false) ordinaryBuiltinValue (by decide)

/-- An `__init__` slot whose documentation string declares a non-`None`
return type. -/
def initWithDocValue : RMember :=
  ⟨"wrapper_descriptor", false, false, false, false, false, some "__init__(self) -> int"⟩

/-- C1 counterexample: for a member stub with `class_name` set and name
`__init__`, a documentation string matching the signature pattern overrides
the initial `None` return type — the rendered return type here is `int`,
refuting "always `None` regardless of the documentation string". -/
theorem c1_counterexample :
    generate_c_function_stub "m" "__init__" initWithDocValue (some "self") [] (some "C") [] [] =
      ([], "def __init__(self) -> int: ...") ∧
    (generate_c_function_stub "m" "__init__" initWithDocValue (some "self") [] (some "C")
      [] []).2 ≠ "def __init__(self) -> None: ..." := by
  constructor
  · decide
  · decide

/-- C1 (amended): for an `__init__` member stub (class name set and
non-empty), the rendered return type is the no-value marker `None` whenever
the documentation string yields no inferred signature; override table
entries never change it.  (When the documentation string does match the
signature pattern, its return type wins, as `c1_counterexample` shows.) -/
theorem c1_init_return_none_unless_doc (modName cn : String) (obj : RMember)
    (sigs class_sigs : List (String × String)) (imports : List String)
    (hdoc : infer_sig_from_docstring obj.doc "__init__" = none)
    (hcn : cn ≠ "")
    (hmod : pyStartsWith "None" modName = false) :
    ∃ args imps,
      generate_c_function_stub modName "__init__" obj (some "self") sigs (some cn)
        class_sigs imports = (imps, "def __init__(" ++ args ++ ") -> None: ...") := by
  have htr : truthy (some cn) = true := by simp [truthy, hcn]
  have hret : (pick_signature "__init__" obj.doc sigs class_sigs (some cn) "None").2 =
      "None" := pick_signature_ret_of_no_doc _ _ _ _ _ _ hdoc
  have hstrip : ∀ imps : List String, strip_or_import "None" modName imps = ("None", imps) := by
    intro imps
    rw [strip_or_import, if_neg (by simp [hmod]), if_neg (by decide)]
  simp only [generate_c_function_stub, htr, hret, hstrip, eq_self_iff_true, true_and,
    and_self, if_true]
  exact ⟨_, _, congrArg _ (render_def_line_init_none _ _)⟩

/-- An undocumented slot-wrapper member value. -/
def undocumentedSlotValue : RMember :=
  ⟨"wrapper_descriptor", false, false, false, false, false, none⟩

/-- Witness for `c1_init_return_none_unless_doc` at a concrete member. -/
theorem c1_init_return_none_unless_doc_witness :
    ∃ args imps,
      generate_c_function_stub "m" "__init__" undocumentedSlotValue (some "self") []
        (some "C") [] [] = (imps, "def __init__(" ++ args ++ ") -> None: ...") :=
  c1_init_return_none_unless_doc "m" "C" undocumentedSlotValue [] [] [] rfl
    (by decide) (by decide)

/-! ### Claim C8 -/

/-- Evaluation of `generate_c_function_stub` for a method name whose
heuristic parameter list is `(other)`, when the documentation string is
absent and no override applies. -/
theorem gen_binary_op_line (modName name cn : String) (obj : RMember)
    (sigs class_sigs : List (String × String)) (imports : List String)
    (hms : infer_method_sig name = "(other)")
    (h1 : name ≠ "__new__") (h2 : name ≠ "__init__")
    (hdoc : obj.doc = none)
    (hsig : lookupSig sigs name = none)
    (hcn : cn ≠ "")
    (hmod : pyStartsWith "Any" modName = false) :
    generate_c_function_stub modName name obj (some "self") sigs (some cn) class_sigs
      imports = (imports, "def " ++ name ++ "(self, other) -> Any: ...") := by
  have htr : truthy (some cn) = true := by simp [truthy, hcn]
  have hpick : pick_signature name obj.doc sigs class_sigs (some cn) "Any" =
      ("(other)", "Any") := by
    have hnone : infer_sig_from_docstring obj.doc name = none := by
      rw [hdoc]
      rfl
    rw [pick_signature, if_neg (by simp [h1, h2])]
    simp only [hnone]
    rw [if_pos ⟨htr, hsig⟩, hms]
  have h0 : (if name = "__init__" ∧ truthy (some cn) = true then "None" else "Any") =
      "Any" := if_neg (by simp [h2])
  have harg : (if truthy (some "self") = true then (some "self").getD "" ++ ", " else "") =
      "self, " := by decide
  have hsig1 : pyDropRight (pyDrop "(other)" 1) 1 = "other" := by decide
  have helide : elide_self "other" "self, " (some "self") = ("self, ", "other") := by decide
  have hres : resolve_arg_types "other" modName imports = ("other", imports) := rfl
  have hstrip : strip_or_import "Any" modName imports = ("Any", imports) := by
    rw [strip_or_import, if_neg (by simp [hmod]), if_neg (by decide)]
  simp only [generate_c_function_stub, h0, harg, hpick, hsig1, helide, hres, hstrip]
  exact congrArg _ (render_def_line_other name)

/-- The binary-operator dunder method names of the heuristic table. -/
def binaryOperatorDunderNames : List String :=
  ["__eq__", "__ne__", "__lt__", "__le__", "__gt__", "__ge__",
   "__add__", "__radd__", "__sub__", "__rsub__", "__mul__", "__rmul__",
   "__mod__", "__rmod__", "__floordiv__", "__rfloordiv__", "__truediv__", "__rtruediv__",
   "__divmod__", "__rdivmod__", "__pow__", "__rpow__"]

/-- C8: a class member named `__eq__` — or any other binary-operator dunder
name — with no documentation string and no override entry is rendered with
exactly one parameter named `other` beside the implied receiver `self`. -/
theorem c8_binary_operator_sig (modName name cn : String) (obj : RMember)
    (sigs class_sigs : List (String × String)) (imports : List String)
    (hmem : name ∈ binaryOperatorDunderNames)
    (hdoc : obj.doc = none)
    (hsig : lookupSig sigs name = none)
    (hcn : cn ≠ "")
    (hmod : pyStartsWith "Any" modName = false) :
    generate_c_function_stub modName name obj (some "self") sigs (some cn) class_sigs
      imports = (imports, "def " ++ name ++ "(self, other) -> Any: ...") := by
  have hms : infer_method_sig name = "(other)" := by
    have hall : ∀ n ∈ binaryOperatorDunderNames, infer_method_sig n = "(other)" := by decide
    exact hall name hmem
  have h1 : name ≠ "__new__" := by
    rintro rfl
    revert hmem
    decide
  have h2 : name ≠ "__init__" := by
    rintro rfl
    revert hmem
    decide
  exact gen_binary_op_line modName name cn obj sigs class_sigs imports hms h1 h2 hdoc
    hsig hcn hmod

/-- Witness for `c8_binary_operator_sig` at `__eq__`. -/
theorem c8_binary_operator_sig_witness :
    generate_c_function_stub "m" "__eq__" undocumentedSlotValue (some "self") [] (some "C")
      [] [] = ([], "def __eq__(self, other) -> Any: ...") :=
  (c8_binary_operator_sig "m" "__eq__" "C" undocumentedSlotValue [] [] [] (by decide) rfl
    rfl (by decide) (by decide)).trans (by decide)

/-! ### Claim C10 -/

/-- C10: a module-level symbol whose name starts and ends with a double
underscore is never selected by the class pass or the constant pass, but the
function pass applies no such filter: when the symbol is classified as a C
function it is selected for a free-function stub. -/
theorem c10_dunder_symbols (m : PyModule) (n : String) (hd : isDunderName n = true) :
    n ∉ moduleTypeNames m ∧ n ∉ moduleVariableNames m ∧
      (n ∈ m.names → is_c_function (m.dict n).val = true → n ∈ moduleFunctionNames m) := by
  refine ⟨?_, ?_, ?_⟩
  · intro hmem
    rw [moduleTypeNames, List.mem_filter] at hmem
    simp [hd] at hmem
  · intro hmem
    rw [moduleVariableNames, List.mem_filter] at hmem
    simp [hd] at hmem
  · intro hn hf
    rw [moduleFunctionNames, List.mem_filter]
    exact ⟨(List.perm_insertionSort strLE m.names).mem_iff.2 hn, hf⟩

/-- A module symbol holding an ordinary builtin function. -/
def builtinFunctionSym : RSym :=
  ⟨ordinaryBuiltinValue, false, false, [], fun _ => ordinaryBuiltinValue, []⟩

/-- Witness for `c10_dunder_symbols` on a module exposing only `__version__`
as a builtin function. -/
theorem c10_dunder_symbols_witness :
    "__version__" ∉ moduleTypeNames ⟨"m", ["__version__"], fun _ => builtinFunctionSym⟩ ∧
    "__version__" ∉ moduleVariableNames ⟨"m", ["__version__"], fun _ => builtinFunctionSym⟩ ∧
    "__version__" ∈ moduleFunctionNames ⟨"m", ["__version__"], fun _ => builtinFunctionSym⟩ := by
  have h := c10_dunder_symbols ⟨"m", ["__version__"], fun _ => builtinFunctionSym⟩
    "__version__" (by decide)
  exact ⟨h.1, h.2.1, h.2.2 (by decide) (by decide)⟩

/-! ### Claim C9 -/

/-- C9: when the target module is not a qualifying C module, the entry
point's effect trace is exactly the import followed by the precondition
failure: the output destination is never opened and no line is written, so
the precondition aborts before any byte of output. -/
theorem c9_precondition_aborts_before_output (issub : PyType → PyType → Bool)
    (isCMod dirExists : Bool) (m : PyModule) (target : String) (add_header : Bool)
    (sigs class_sigs : List (String × String)) (h : isCMod = false) :
    generate_stub_for_c_module issub isCMod dirExists m target add_header sigs class_sigs =
      [IOEvent.importModule m.name, IOEvent.precondFailed (m.name ++ " is not a C module")] ∧
    (∀ p, IOEvent.openTarget p ∉
      generate_stub_for_c_module issub isCMod dirExists m target add_header sigs class_sigs) ∧
    (∀ s, IOEvent.writeLine s ∉
      generate_stub_for_c_module issub isCMod dirExists m target add_header sigs class_sigs) := by
  subst h
  refine ⟨rfl, ?_, ?_⟩ <;> intro x hx <;>
    simp [generate_stub_for_c_module] at hx

/-- Witness for `c9_precondition_aborts_before_output` at a concrete call. -/
theorem c9_precondition_aborts_before_output_witness :
    generate_stub_for_c_module (fun _ _ => false) false true
      ⟨"m", ["__version__"], fun _ => builtinFunctionSym⟩ "out/m.pyi" true [] [] =
      [IOEvent.importModule "m", IOEvent.precondFailed "m is not a C module"] :=
  ((c9_precondition_aborts_before_output (fun _ _ => false) false true
    ⟨"m", ["__version__"], fun _ => builtinFunctionSym⟩ "out/m.pyi" true [] [] rfl).1).trans
    (by decide)

/-! ### Claim C7 -/

/-- C7: the generated output is independent of the enumeration order of the
module's symbol table — for any permutation of the snapshot's symbol list
(the module dict's enumeration order), the generated lines are identical,
because the generator sorts all enumeration by symbol name before
processing.  Repeated generation on a fixed snapshot is the special case of
the identity permutation. -/
theorem c7_output_enumeration_order_independent (issub : PyType → PyType → Bool)
    (nm : String) (names₁ names₂ : List String) (dict : String → RSym)
    (sigs class_sigs : List (String × String)) (hperm : names₁.Perm names₂) :
    generate_stub_lines issub ⟨nm, names₁, dict⟩ sigs class_sigs =
      generate_stub_lines issub ⟨nm, names₂, dict⟩ sigs class_sigs := by
  have hsort : moduleSortedNames ⟨nm, names₁, dict⟩ = moduleSortedNames ⟨nm, names₂, dict⟩ :=
    List.eq_of_perm_of_sorted
      ((List.perm_insertionSort _ names₁).trans
        (hperm.trans (List.perm_insertionSort _ names₂).symm))
      (List.sorted_insertionSort _ names₁) (List.sorted_insertionSort _ names₂)
  simp only [generate_stub_lines, moduleFunctionNames, moduleTypeNames,
    moduleVariableNames, moduleDoneNames, hsort]

/-- A minimal inert module symbol (an `int` constant). -/
def intConstSym : RSym :=
  ⟨⟨"int", false, false, false, false, false, none⟩, false, false, [],
   fun _ => ⟨"int", false, false, false, false, false, none⟩, []⟩

/-- Witness for `c7_output_enumeration_order_independent`: two enumeration
orders of the same two-symbol module. -/
theorem c7_output_enumeration_order_independent_witness :
    generate_stub_lines (fun _ _ => false) ⟨"m", ["b", "a"], fun _ => intConstSym⟩ [] [] =
      generate_stub_lines (fun _ _ => false) ⟨"m", ["a", "b"], fun _ => intConstSym⟩ [] [] :=
  c7_output_enumeration_order_independent (fun _ _ => false) "m" ["b", "a"] ["a", "b"]
    (fun _ => intConstSym) [] [] (by decide)

end Stubgenc
